import Mathlib

/-!
Shallow embedding of NBCFB/Octopus (`Octopus.go`): graceful restart/shutdown
of an HTTP server via signal handling, listener-descriptor handoff through
an environment variable, and process forking.

Conventions of the embedding:
* Durations are in nanoseconds (`time.Second = 1000000000`), clocks are `Nat`.
* Fallible OS and library calls (`net.Listen`, `net.FileListener`, `t.File()`,
  `os.Executable`, `os.StartProcess`, `syscall.Kill`, `server.Shutdown`) are
  modelled by explicit oracle records (`NetSys`, `ForkSys`, `DispatchSys`)
  supplied as inputs, so every run of the embedded code is a pure function of
  its inputs.
* `encoding/json` marshalling of the flat `listenerDescriptor` struct is
  modelled by its contract: the environment channel carries either nothing,
  an unparseable payload, or a decoded descriptor (`EnvValue`); `json.Marshal`
  followed by `json.Unmarshal` of the same struct is the identity embedding
  `EnvValue.record`.
* `log.Printf`/`log.Fatalf` calls are recorded as events in explicit logs so
  that the logging claims are statable; `log.Fatalf` terminates the process,
  modelled as a distinguished fatal outcome.
-/

namespace Octopus

/-- `time.Second` in nanoseconds. -/
def timeSecond : Nat := 1000000000

/-- `DefaultEnvVar = "OCTOPUS_LISTENER"`. -/
def DefaultEnvVar : String := "OCTOPUS_LISTENER"

/-- `DefaultNetwork = "tcp"`. -/
def DefaultNetwork : String := "tcp"

/-- `DefaultAwaitTimeout = 5 * time.Second`, in nanoseconds. -/
def DefaultAwaitTimeout : Nat := 5 * timeSecond

/-- `listenerDescriptor`: the JSON record handed from parent to child
(`Addr`, `FD`, `Name`). `FD` is a Go `int`, so it may be negative. -/
structure listenerDescriptor where
  Addr : String
  FD : Int
  Name : String
deriving DecidableEq, Repr

/-- A `net.Listener` value, abstracted to what the code inspects: its dynamic
type (`*net.TCPListener`, `*net.UnixListener`, or anything else) and an
identifying tag. -/
inductive Listener where
  | tcp (tag : String)
  | unix (tag : String)
  | otherKind (typeName : String)
deriving DecidableEq, Repr

/-- The model of `GracefulServer` (the `Server *http.Server` field is the
externally owned engine and carries no state the core reads, so it is
dropped; `Listener` is `none` until `createListener` assigns it). -/
structure GracefulServer where
  Addr : String
  PID : Nat
  Listener : Option Listener
deriving DecidableEq, Repr

/-- The value of the `OCTOPUS_LISTENER` environment variable, modelled at the
`encoding/json` contract level: `os.Getenv` returns the empty string, a
string `json.Unmarshal` rejects, or a string that decodes to a descriptor. -/
inductive EnvValue where
  | empty
  | malformed (s : String)
  | record (d : listenerDescriptor)
deriving DecidableEq, Repr

/-- Oracles for the networking calls `net.FileListener` (given the descriptor
slot and file name) and `net.Listen` (given network and address): `some l` on
success, `none` when the call returns an error. -/
structure NetSys where
  fileListener : Int → String → Option Listener
  listen : String → String → Option Listener

/-- The distinct error returns of `importListener`. -/
inductive ImportError where
  | unmarshal (env : String)
  | addrMismatch (addr : String)
  | newFileFailed (name : String)
  | fileListenerFailed
deriving DecidableEq, Repr

/-- `importListener`: unmarshal the environment payload, check that the
descriptor's address equals the server's address, rebuild an `os.File` from
the descriptor slot (`os.NewFile` yields `nil` exactly when the slot is
negative), and call `net.FileListener` on it. -/
def importListener (sys : NetSys) (srv : GracefulServer) (env : EnvValue) :
    Except ImportError Listener :=
  match env with
  | .empty => .error (.unmarshal "")
  | .malformed s => .error (.unmarshal s)
  | .record fl =>
    if fl.Addr ≠ srv.Addr then .error (.addrMismatch srv.Addr)
    else if fl.FD < 0 then .error (.newFileFailed fl.Name)
    else
      match sys.fileListener fl.FD fl.Name with
      | some l => .ok l
      | none => .error .fileListenerFailed

/-- `newListener`: `net.Listen(DefaultNetwork, srv.Addr)`. -/
def newListener (sys : NetSys) (srv : GracefulServer) : Option Listener :=
  sys.listen DefaultNetwork srv.Addr

/-- The log lines `createListener` can emit. -/
inductive ListenLog where
  | imported
  | importFailed (e : ImportError)
  | createdNew (addr : String)
deriving DecidableEq, Repr

/-- What one call to `createListener` did: the listener assigned to
`srv.Listener` (if any), the returned error, how many times `newListener`
(fresh creation) was called, and the log lines in order. -/
structure CreateResult where
  listener : Option Listener
  err : Option String
  freshCalls : Nat
  logs : List ListenLog
deriving DecidableEq, Repr

/-- `createListener`: when the environment variable is nonempty, try
`importListener`; on success log and return, on failure log and fall through;
then (also when the variable is empty) call `newListener` once. -/
def createListener (sys : NetSys) (srv : GracefulServer) (env : EnvValue) :
    CreateResult :=
  let fresh : List ListenLog → CreateResult := fun prev =>
    match newListener sys srv with
    | some l =>
      { listener := some l, err := none, freshCalls := 1,
        logs := prev ++ [.createdNew srv.Addr] }
    | none =>
      { listener := none, err := some "listen failed", freshCalls := 1,
        logs := prev }
  match env with
  | .empty => fresh []
  | _ =>
    match importListener sys srv env with
    | .ok l => { listener := some l, err := none, freshCalls := 0, logs := [.imported] }
    | .error e => fresh [.importFailed e]

/-- Oracles for the OS calls made by `forkChild`, covering one call:
`t.File()` on the listener (`listenerFile`, the file's name on success),
`json.Marshal` (`marshalOk`), `os.Executable` (`executableOk`),
`os.StartProcess` (`startOk`, with the child's pid `childPid` on success),
and `syscall.Kill(mpid, SIGTERM)` (`killOk`). -/
structure ForkSys where
  listenerFile : Option String
  marshalOk : Bool
  executableOk : Bool
  startOk : Bool
  childPid : Nat
  killOk : Bool
deriving DecidableEq, Repr

/-- The entries of the child's inherited descriptor table, in order:
`files := []*os.File{os.Stdin, os.Stdout, os.Stderr, f}`. -/
inductive FileSlot where
  | stdin
  | stdout
  | stderr
  | extra (name : String)
deriving DecidableEq, Repr

/-- The distinct error returns of `forkChild`. -/
inductive ForkError where
  | unsupportedListener (typeName : String)
  | listenerFileFailed
  | marshalFailed
  | executableFailed
  | startFailed
  | killFailed (mpid : Nat)
deriving DecidableEq, Repr

/-- `createListenerFile`: type-switch on the listener; `*net.TCPListener` and
`*net.UnixListener` expose `File()` (which may itself fail), every other
dynamic type is reported as an unsupported listener. -/
def createListenerFile (sys : ForkSys) (l : Listener) : Except ForkError String :=
  match l with
  | .tcp _ =>
    match sys.listenerFile with
    | some n => .ok n
    | none => .error .listenerFileFailed
  | .unix _ =>
    match sys.listenerFile with
    | some n => .ok n
    | none => .error .listenerFileFailed
  | .otherKind t => .error (.unsupportedListener t)

/-- What one call to `forkChild` did: the returned error (if any), whether
`os.StartProcess` had already succeeded (the child exists), the child's pid,
the descriptor that was serialized, the environment payload appended to
`os.Environ()`, the child's descriptor table, and whether the master was
sent `SIGTERM`. Fields of stages never reached hold `none` / `[]` / `false`. -/
structure ForkResult where
  err : Option ForkError
  childSpawned : Bool
  childPid : Option Nat
  descriptor : Option listenerDescriptor
  envPayload : Option EnvValue
  files : List FileSlot
  masterKilled : Bool
deriving DecidableEq, Repr

/-- `forkChild`: extract the listener file, build the descriptor with the
hard-coded slot `FD = 3`, marshal it into the environment payload, attach
`[stdin, stdout, stderr, f]` as the child's descriptor table, resolve the
executable, start the child; then, when `killMaster` is set, send `SIGTERM`
to `mpid`, and surface a send failure as failure of the whole fork. A `nil`
listener hits the type switch's default case. -/
def forkChild (sys : ForkSys) (killMaster : Bool) (mpid : Nat)
    (srv : GracefulServer) : ForkResult :=
  let failed : ForkError → ForkResult := fun e =>
    { err := some e, childSpawned := false, childPid := none, descriptor := none,
      envPayload := none, files := [], masterKilled := false }
  match srv.Listener with
  | none => failed (.unsupportedListener "nil")
  | some lst =>
    match createListenerFile sys lst with
    | .error e => failed e
    | .ok fname =>
      let d : listenerDescriptor := { Addr := srv.Addr, FD := 3, Name := fname }
      if sys.marshalOk = false then { (failed .marshalFailed) with descriptor := some d }
      else
        let env := EnvValue.record d
        let files : List FileSlot := [.stdin, .stdout, .stderr, .extra fname]
        if sys.executableOk = false then
          { (failed .executableFailed) with descriptor := some d, envPayload := some env, files := files }
        else if sys.startOk = false then
          { (failed .startFailed) with descriptor := some d, envPayload := some env, files := files }
        else
          let spawned : ForkResult :=
            { err := none, childSpawned := true, childPid := some sys.childPid,
              descriptor := some d, envPayload := some env, files := files,
              masterKilled := false }
          if killMaster then
            if sys.killOk then { spawned with masterKilled := true }
            else { spawned with err := some (.killFailed mpid) }
          else spawned

/-- What one call to `shutDown` (or `GracefulShutDown`) did: the deadline of
the `context.WithTimeout` context, the absolute deadline that was logged,
the deadline handed to `server.Shutdown`, whether `cancel` was released
(`defer cancel()`), and the engine's drain result. -/
structure ShutdownCall where
  deadline : Nat
  loggedDeadline : Nat
  drainDeadline : Nat
  cancelReleased : Bool
  engineErr : Option String
deriving DecidableEq, Repr

/-- `shutDown`: build a context with deadline `now + DefaultAwaitTimeout`,
log that absolute deadline, defer `cancel`, and return
`srv.Server.Shutdown(ctx)` — the engine's drain outcome at that deadline.
There is no timeout parameter: the constant is the only timeout. -/
def shutDown (now : Nat) (engine : Nat → Option String) : ShutdownCall :=
  let expired := now + DefaultAwaitTimeout
  { deadline := expired, loggedDeadline := expired, drainDeadline := expired,
    cancelReleased := true, engineErr := engine expired }

/-- Modelled from the spec (for refinement comparison only, not from the
source): a Graceful Shutdown that "takes an optional override timeout
defaulting to the fixed constant" and establishes its deadline at now plus
that timeout. -/
def shutDownSpec (timeout : Option Nat) (now : Nat) (engine : Nat → Option String) :
    ShutdownCall :=
  let expired := now + timeout.getD DefaultAwaitTimeout
  { deadline := expired, loggedDeadline := expired, drainDeadline := expired,
    cancelReleased := true, engineErr := engine expired }

/-- The OS signals a delivery can carry. The five hooked constructors mirror
the `switch` cases `SIGHUP`, `SIGUSR1`, `SIGUSR2`, `SIGINT`, `SIGTERM`; any
other delivered signal is `otherSig` with its name. -/
inductive Sig where
  | hup
  | usr1
  | usr2
  | intr
  | term
  | otherSig (name : String)
deriving DecidableEq, Repr

/-- `sigHooks`: the list passed to `signal.Notify`. -/
def sigHooks : List Sig := [.hup, .usr1, .usr2, .intr, .term]

/-- The log lines the dispatcher loop emits. -/
inductive DispatchLog where
  | received (s : Sig)
  | forkFailed (e : ForkError)
  | notHooked (s : Sig)
deriving DecidableEq, Repr

/-- The dispatcher's observable state while the loop runs: how many times
`srv.forkChild` was called, how many times `srv.shutDown` was called, and the
log lines in order. -/
structure LoopState where
  forkAttempts : Nat
  shutdownAttempts : Nat
  logs : List DispatchLog
deriving DecidableEq, Repr

/-- The initial dispatcher state on entering `handleSignals`. -/
def initLoopState : LoopState :=
  { forkAttempts := 0, shutdownAttempts := 0, logs := [] }

/-- The environment of one `handleSignals` run: an oracle family giving the
`ForkSys` consumed by the n-th `forkChild` call, the wall clock at the moment
`shutDown` builds its context, and the serving engine's drain outcome as a
function of the context deadline. -/
structure DispatchSys where
  forkSys : Nat → ForkSys
  now : Nat
  engine : Nat → Option String

/-- The outcome of processing one signal: either the `for` loop continues
with the next state, or `handleSignals` returns with the recorded
`shutDown` call. -/
inductive StepOut where
  | next (st : LoopState)
  | exitLoop (st : LoopState) (call : ShutdownCall)
deriving DecidableEq, Repr

/-- One iteration of the `for` loop of `handleSignals` on a received signal:
log the reception and run the `switch`. `SIGHUP`: fork, and on error log and
`continue`, else return `srv.shutDown()`. `SIGUSR1`/`SIGUSR2`: fork, on error
log; either way the loop continues. `SIGINT`/`SIGTERM`: return
`srv.shutDown()`. Default: log that the signal is not hooked. -/
def dispatchStep (sys : DispatchSys) (killMaster : Bool) (mpid : Nat)
    (srv : GracefulServer) (st : LoopState) (sig : Sig) : StepOut :=
  let st := { st with logs := st.logs ++ [DispatchLog.received sig] }
  match sig with
  | .hup =>
    let r := forkChild (sys.forkSys st.forkAttempts) killMaster mpid srv
    let st := { st with forkAttempts := st.forkAttempts + 1 }
    match r.err with
    | some e => .next { st with logs := st.logs ++ [DispatchLog.forkFailed e] }
    | none =>
      .exitLoop { st with shutdownAttempts := st.shutdownAttempts + 1 }
        (shutDown sys.now sys.engine)
  | .usr1 =>
    let r := forkChild (sys.forkSys st.forkAttempts) killMaster mpid srv
    let st := { st with forkAttempts := st.forkAttempts + 1 }
    match r.err with
    | some e => .next { st with logs := st.logs ++ [DispatchLog.forkFailed e] }
    | none => .next st
  | .usr2 =>
    let r := forkChild (sys.forkSys st.forkAttempts) killMaster mpid srv
    let st := { st with forkAttempts := st.forkAttempts + 1 }
    match r.err with
    | some e => .next { st with logs := st.logs ++ [DispatchLog.forkFailed e] }
    | none => .next st
  | .intr =>
    .exitLoop { st with shutdownAttempts := st.shutdownAttempts + 1 }
      (shutDown sys.now sys.engine)
  | .term =>
    .exitLoop { st with shutdownAttempts := st.shutdownAttempts + 1 }
      (shutDown sys.now sys.engine)
  | .otherSig _ => .next { st with logs := st.logs ++ [DispatchLog.notHooked sig] }

/-- The result of running the loop on a finite prefix of the signal stream:
either every delivered signal was consumed and the loop is still blocked on
the channel (`awaiting`, i.e. the process is still Running), or the loop
returned the outcome of the one `shutDown` call (`returned`). -/
inductive LoopResult where
  | awaiting (st : LoopState)
  | returned (st : LoopState) (call : ShutdownCall)
deriving DecidableEq, Repr

/-- Run the dispatcher loop over a list of delivered signals (signals are
consumed one at a time in arrival order). -/
def dispatchRun (sys : DispatchSys) (killMaster : Bool) (mpid : Nat)
    (srv : GracefulServer) (st : LoopState) : List Sig → LoopResult
  | [] => .awaiting st
  | sig :: rest =>
    match dispatchStep sys killMaster mpid srv st sig with
    | .next st2 => dispatchRun sys killMaster mpid srv st2 rest
    | .exitLoop st2 call => .returned st2 call

/-- `handleSignals`, run from the initial state. -/
def handleSignals (sys : DispatchSys) (killMaster : Bool) (mpid : Nat)
    (srv : GracefulServer) (sigs : List Sig) : LoopResult :=
  dispatchRun sys killMaster mpid srv initLoopState sigs

/-- The ordered observable events of one `GracefulServe`/`GracefulServeTLS`
call, up to and including entry into `handleSignals`. -/
inductive ServeEvent where
  | listenerFatal
  | serveStarted
  | serverClosed
  | startedLog (pid : Nat)
  | enterSignalLoop
  | shutdownFatal
  | shutdownLog
deriving DecidableEq, Repr

/-- How a `GracefulServe`/`GracefulServeTLS` call ends: `log.Fatalf` exits
the process; the dispatcher may still be blocked awaiting signals; or the
function returns its declared results. For `GracefulServe` the results are
the `gs` pointer and the error; for `GracefulServeTLS` (which returns only
an error) the pointer component is unused and `none`. -/
inductive ServeOutcome where
  | fatalExit
  | stillRunning
  | returned (gs : Option GracefulServer) (err : Option String)
deriving DecidableEq, Repr

/-- One run of a serve entry point: the event trace and the outcome. -/
structure ServeRun where
  events : List ServeEvent
  outcome : ServeOutcome
deriving DecidableEq, Repr

/-- `GracefulServe`: build the `GracefulServer` from the user's server
address, acquire a listener (`log.Fatalf` on failure), start the engine on
its own goroutine, record the pid, and hand control to `handleSignals`. A
non-nil error from `handleSignals` is `log.Fatalf`; otherwise the function
logs and executes `return gs, nil`, where `gs` is the never-assigned named
result (the Go zero value `nil`), not the internal `srv`. -/
def GracefulServe (net : NetSys) (sys : DispatchSys) (pid : Nat)
    (serverAddr : String) (killMaster : Bool) (env : EnvValue)
    (sigs : List Sig) : ServeRun :=
  let srv0 : GracefulServer := { Addr := serverAddr, PID := 0, Listener := none }
  let c := createListener net srv0 env
  match c.listener with
  | none => { events := [.listenerFatal], outcome := .fatalExit }
  | some l =>
    let srv : GracefulServer := { srv0 with Listener := some l, PID := pid }
    let events : List ServeEvent := [.serveStarted, .startedLog pid, .enterSignalLoop]
    match handleSignals sys killMaster pid srv sigs with
    | .awaiting _ => { events := events, outcome := .stillRunning }
    | .returned _ call =>
      match call.engineErr with
      | some _ => { events := events ++ [.shutdownFatal], outcome := .fatalExit }
      | none => { events := events ++ [.shutdownLog], outcome := .returned none none }

/-- `GracefulServeTLS`: as `GracefulServe`, except that the engine is started
with `ServeTLS` and — the next statement of the function body — `server.Close()`
is invoked on the caller's `http.Server` before the pid is recorded and the
signal loop is entered. It returns only an error. -/
def GracefulServeTLS (net : NetSys) (sys : DispatchSys) (pid : Nat)
    (serverAddr : String) (killMaster : Bool) (env : EnvValue)
    (sigs : List Sig) : ServeRun :=
  let srv0 : GracefulServer := { Addr := serverAddr, PID := 0, Listener := none }
  let c := createListener net srv0 env
  match c.listener with
  | none => { events := [.listenerFatal], outcome := .fatalExit }
  | some l =>
    let srv : GracefulServer := { srv0 with Listener := some l, PID := pid }
    let events : List ServeEvent :=
      [.serveStarted, .serverClosed, .startedLog pid, .enterSignalLoop]
    match handleSignals sys killMaster pid srv sigs with
    | .awaiting _ => { events := events, outcome := .stillRunning }
    | .returned _ call =>
      match call.engineErr with
      | some _ => { events := events ++ [.shutdownFatal], outcome := .fatalExit }
      | none => { events := events ++ [.shutdownLog], outcome := .returned none none }

/-! Concrete fixtures used by witnesses and counterexamples. -/

/-- A TCP listener fixture. -/
def tcpL : Listener := Listener.tcp "l0"

/-- A server fixture bound to `localhost:8080`. -/
def srvA : GracefulServer :=
  { Addr := "localhost:8080", PID := 52233, Listener := some tcpL }

/-- Networking oracles where every call succeeds. -/
def netOK : NetSys :=
  { fileListener := fun _ n => some (Listener.tcp n),
    listen := fun _ a => some (Listener.tcp a) }

/-- Fork oracles where every OS call succeeds. -/
def forkOK : ForkSys :=
  { listenerFile := some "listener-file", marshalOk := true,
    executableOk := true, startOk := true, childPid := 55344, killOk := true }

/-- Fork oracles where `os.StartProcess` fails. -/
def forkStartFail : ForkSys := { forkOK with startOk := false }

/-- Fork oracles where `syscall.Kill(mpid, SIGTERM)` fails. -/
def forkKillFail : ForkSys := { forkOK with killOk := false }

/-- A dispatcher environment whose forks all succeed and whose engine drains
in time. -/
def sysForkOK : DispatchSys :=
  { forkSys := fun _ => forkOK, now := 100, engine := fun _ => none }

/-- A dispatcher environment whose forks all fail at `os.StartProcess`. -/
def sysForkFail : DispatchSys :=
  { forkSys := fun _ => forkStartFail, now := 100, engine := fun _ => none }

/-! The claims. -/

/-- **C5, counterexample.** The spec-modelled Graceful Shutdown accepts an
override timeout (here 10 s) and its deadline honours it; the shutdown in
the source has no such input, and its deadline from the same instant is the
fixed `DefaultAwaitTimeout`, so the two differ: no override is possible. -/
theorem C5_counterexample :
    (shutDownSpec (some (10 * timeSecond)) 0 (fun _ => none)).deadline = 10 * timeSecond ∧
    (shutDown 0 (fun _ => none)).deadline = DefaultAwaitTimeout ∧
    10 * timeSecond ≠ DefaultAwaitTimeout := by
  refine ⟨rfl, rfl, ?_⟩
  decide

/-- **C5, amended.** `shutDown` takes no override timeout: it always behaves
as the spec-modelled shutdown with no override, i.e. it establishes its
deadline at now plus the fixed 5-second `DefaultAwaitTimeout`, logs that
absolute deadline, and asks the serving engine to drain until it. -/
theorem C5_fixed_timeout_shutdown (now : Nat) (engine : Nat → Option String) :
    shutDown now engine = shutDownSpec none now engine ∧
    (shutDown now engine).deadline = now + DefaultAwaitTimeout ∧
    (shutDown now engine).loggedDeadline = now + DefaultAwaitTimeout ∧
    (shutDown now engine).drainDeadline = now + DefaultAwaitTimeout ∧
    (shutDown now engine).engineErr = engine (now + DefaultAwaitTimeout) ∧
    DefaultAwaitTimeout = 5 * timeSecond :=
  ⟨rfl, rfl, rfl, rfl, rfl, rfl⟩

/-- **C6.** When the kill-master flag is set and every step up to and
including `os.StartProcess` succeeds but sending `SIGTERM` to the master's
own pid fails, `forkChild` returns an error even though the child was
already spawned (and has a pid), and the master was not killed. -/
theorem C6_kill_failure_fails_fork (sys : ForkSys) (mpid : Nat)
    (srv : GracefulServer) (lst : Listener) (fname : String)
    (h1 : srv.Listener = some lst)
    (h2 : createListenerFile sys lst = .ok fname)
    (h3 : sys.marshalOk = true) (h4 : sys.executableOk = true)
    (h5 : sys.startOk = true) (h6 : sys.killOk = false) :
    (forkChild sys true mpid srv).err = some (.killFailed mpid) ∧
    (forkChild sys true mpid srv).childSpawned = true ∧
    (forkChild sys true mpid srv).childPid = some sys.childPid ∧
    (forkChild sys true mpid srv).masterKilled = false := by
  simp [forkChild, h1, h2, h3, h4, h5, h6]

/-- **C6, witness.** The kill-failure fork at the concrete fixtures. -/
theorem C6_kill_failure_fails_fork_witness :
    (forkChild forkKillFail true 52233 srvA).err = some (.killFailed 52233) ∧
    (forkChild forkKillFail true 52233 srvA).childSpawned = true ∧
    (forkChild forkKillFail true 52233 srvA).childPid = some forkKillFail.childPid ∧
    (forkChild forkKillFail true 52233 srvA).masterKilled = false :=
  C6_kill_failure_fails_fork forkKillFail 52233 srvA tcpL "listener-file"
    rfl rfl rfl rfl rfl rfl

/-- **C10.** `GracefulServe` either exits the process via `log.Fatalf`, or is
still blocked in the signal loop, or returns — and when it returns it returns
the nil `GracefulServer` pointer together with a nil error: the internally
constructed handle is never returned. -/
theorem C10_serve_returns_nil (net : NetSys) (sys : DispatchSys) (pid : Nat)
    (addr : String) (km : Bool) (env : EnvValue) (sigs : List Sig) :
    (GracefulServe net sys pid addr km env sigs).outcome = .fatalExit ∨
    (GracefulServe net sys pid addr km env sigs).outcome = .stillRunning ∨
    (GracefulServe net sys pid addr km env sigs).outcome = .returned none none := by
  simp only [GracefulServe]
  split
  · left; rfl
  · split
    · right; left; rfl
    · split
      · left; rfl
      · right; right; rfl

/-- **C9.** Every `GracefulServeTLS` run either dies acquiring a listener, or
its event trace begins with launching the TLS serving goroutine immediately
followed by `Close` on the caller's `http.Server`, with the signal loop
entered only afterwards: the serving engine is closed right after being
started. -/
theorem C9_tls_close_after_start (net : NetSys) (sys : DispatchSys) (pid : Nat)
    (addr : String) (km : Bool) (env : EnvValue) (sigs : List Sig) :
    (GracefulServeTLS net sys pid addr km env sigs).events = [.listenerFatal] ∨
    ∃ rest, (GracefulServeTLS net sys pid addr km env sigs).events =
      .serveStarted :: .serverClosed :: .startedLog pid :: .enterSignalLoop :: rest := by
  simp only [GracefulServeTLS]
  split
  · left; rfl
  · split
    · exact Or.inr ⟨[], rfl⟩
    · split
      · exact Or.inr ⟨[.shutdownFatal], rfl⟩
      · exact Or.inr ⟨[.shutdownLog], rfl⟩

/-- **C1, counterexample.** A run in which the hangup signal is delivered and
the fork fails (`os.StartProcess` error): the dispatcher logs the failure and
is still awaiting signals with zero `shutDown` calls — it does not proceed to
attempt graceful shutdown. -/
theorem C1_counterexample :
    handleSignals sysForkFail false 52233 srvA [Sig.hup] =
      .awaiting ⟨1, 0, [.received .hup, .forkFailed .startFailed]⟩ ∧
    (forkChild (sysForkFail.forkSys 0) false 52233 srvA).err = some .startFailed :=
  ⟨rfl, rfl⟩

/-- **C1, amended.** On a hangup delivery whose fork fails, the dispatcher
logs the error and continues the signal loop in the Running state with its
shutdown count unchanged: graceful shutdown is not attempted on that
delivery. -/
theorem C1_hangup_fork_failure_continues (sys : DispatchSys) (km : Bool)
    (mpid : Nat) (srv : GracefulServer) (st : LoopState) (rest : List Sig)
    (e : ForkError)
    (h : (forkChild (sys.forkSys st.forkAttempts) km mpid srv).err = some e) :
    dispatchRun sys km mpid srv st (.hup :: rest) =
      dispatchRun sys km mpid srv
        ⟨st.forkAttempts + 1, st.shutdownAttempts,
          st.logs ++ [.received .hup, .forkFailed e]⟩ rest := by
  simp [dispatchRun, dispatchStep, h]

/-- **C1, witness.** The amended hangup/fork-failure step at the concrete
fixtures. -/
theorem C1_hangup_fork_failure_continues_witness :
    dispatchRun sysForkFail false 52233 srvA initLoopState [Sig.hup] =
      dispatchRun sysForkFail false 52233 srvA
        ⟨initLoopState.forkAttempts + 1, initLoopState.shutdownAttempts,
          initLoopState.logs ++ [.received .hup, .forkFailed .startFailed]⟩ [] :=
  C1_hangup_fork_failure_continues sysForkFail false 52233 srvA initLoopState []
    .startFailed rfl

/-- **C2.** A hangup delivery: when the fork fails the dispatcher logs and
continues the loop in the Running state; when the fork succeeds it performs
the one `shutDown` call and exits the loop returning its outcome, whatever
the engine's drain result (`sys.engine` is arbitrary). -/
theorem C2_hangup_transition (sys : DispatchSys) (km : Bool) (mpid : Nat)
    (srv : GracefulServer) (st : LoopState) (rest : List Sig) :
    (∀ e, (forkChild (sys.forkSys st.forkAttempts) km mpid srv).err = some e →
      dispatchRun sys km mpid srv st (.hup :: rest) =
        dispatchRun sys km mpid srv
          ⟨st.forkAttempts + 1, st.shutdownAttempts,
            st.logs ++ [.received .hup, .forkFailed e]⟩ rest) ∧
    ((forkChild (sys.forkSys st.forkAttempts) km mpid srv).err = none →
      dispatchRun sys km mpid srv st (.hup :: rest) =
        .returned
          ⟨st.forkAttempts + 1, st.shutdownAttempts + 1,
            st.logs ++ [.received .hup]⟩
          (shutDown sys.now sys.engine)) := by
  constructor
  · intro e h
    simp [dispatchRun, dispatchStep, h]
  · intro h
    simp [dispatchRun, dispatchStep, h]

/-- Helper: a user-signal delivery performs exactly one fork attempt and the
loop continues regardless of the fork's outcome. -/
lemma usr_step_forks (sys : DispatchSys) (km : Bool) (mpid : Nat)
    (srv : GracefulServer) (st : LoopState) (sig : Sig)
    (h : sig = Sig.usr1 ∨ sig = Sig.usr2) :
    ∃ st2, dispatchStep sys km mpid srv st sig = .next st2 ∧
      st2.forkAttempts = st.forkAttempts + 1 ∧
      st2.shutdownAttempts = st.shutdownAttempts := by
  rcases h with h | h <;> subst h
  · cases hf : (forkChild (sys.forkSys st.forkAttempts) km mpid srv).err with
    | none =>
      exact ⟨⟨st.forkAttempts + 1, st.shutdownAttempts,
        st.logs ++ [.received .usr1]⟩, by simp [dispatchStep, hf], rfl, rfl⟩
    | some e =>
      exact ⟨⟨st.forkAttempts + 1, st.shutdownAttempts,
        st.logs ++ [.received .usr1, .forkFailed e]⟩,
        by simp [dispatchStep, hf], rfl, rfl⟩
  · cases hf : (forkChild (sys.forkSys st.forkAttempts) km mpid srv).err with
    | none =>
      exact ⟨⟨st.forkAttempts + 1, st.shutdownAttempts,
        st.logs ++ [.received .usr2]⟩, by simp [dispatchStep, hf], rfl, rfl⟩
    | some e =>
      exact ⟨⟨st.forkAttempts + 1, st.shutdownAttempts,
        st.logs ++ [.received .usr2, .forkFailed e]⟩,
        by simp [dispatchStep, hf], rfl, rfl⟩

/-- Helper: `n` consecutive `SIGUSR1` deliveries leave the loop awaiting with
exactly `n` more fork attempts and the shutdown count unchanged. -/
lemma usr1_replicate_run (sys : DispatchSys) (km : Bool) (mpid : Nat)
    (srv : GracefulServer) :
    ∀ (n : Nat) (st : LoopState), ∃ st2,
      dispatchRun sys km mpid srv st (List.replicate n Sig.usr1) = .awaiting st2 ∧
      st2.forkAttempts = st.forkAttempts + n ∧
      st2.shutdownAttempts = st.shutdownAttempts := by
  intro n
  induction n with
  | zero => exact fun st => ⟨st, rfl, rfl, rfl⟩
  | succ k ih =>
    intro st
    obtain ⟨st1, h1, h2, h3⟩ :=
      usr_step_forks sys km mpid srv st Sig.usr1 (Or.inl rfl)
    obtain ⟨st2, g1, g2, g3⟩ := ih st1
    refine ⟨st2, ?_, ?_, ?_⟩
    · rw [List.replicate_succ]
      simp only [dispatchRun, h1]
      exact g1
    · rw [g2, h2]
      omega
    · rw [g3, h3]

/-- **C7.** A `SIGUSR1` or `SIGUSR2` delivery triggers exactly one fork
attempt and the loop continues in the Running state whether the fork succeeds
or fails; and `n` repeated `SIGUSR1` deliveries with nothing in between leave
the loop awaiting with exactly `n` independent fork attempts and no shutdown. -/
theorem C7_user_signal_forks (sys : DispatchSys) (km : Bool) (mpid : Nat)
    (srv : GracefulServer) (st : LoopState) (sig : Sig)
    (h : sig = Sig.usr1 ∨ sig = Sig.usr2) :
    (∃ st2, dispatchStep sys km mpid srv st sig = .next st2 ∧
      st2.forkAttempts = st.forkAttempts + 1 ∧
      st2.shutdownAttempts = st.shutdownAttempts) ∧
    (∀ n, ∃ st2,
      dispatchRun sys km mpid srv st (List.replicate n Sig.usr1) = .awaiting st2 ∧
      st2.forkAttempts = st.forkAttempts + n ∧
      st2.shutdownAttempts = st.shutdownAttempts) :=
  ⟨usr_step_forks sys km mpid srv st sig h,
    fun n => usr1_replicate_run sys km mpid srv n st⟩

/-- **C7, witness.** The user-signal fork behaviour at the concrete fixtures. -/
theorem C7_user_signal_forks_witness :
    (∃ st2, dispatchStep sysForkOK false 52233 srvA initLoopState Sig.usr1 = .next st2 ∧
      st2.forkAttempts = initLoopState.forkAttempts + 1 ∧
      st2.shutdownAttempts = initLoopState.shutdownAttempts) ∧
    (∀ n, ∃ st2,
      dispatchRun sysForkOK false 52233 srvA initLoopState (List.replicate n Sig.usr1) =
        .awaiting st2 ∧
      st2.forkAttempts = initLoopState.forkAttempts + n ∧
      st2.shutdownAttempts = initLoopState.shutdownAttempts) :=
  C7_user_signal_forks sysForkOK false 52233 srvA initLoopState Sig.usr1 (Or.inl rfl)

/-- **C8.** A delivered signal outside the five hooked ones only logs: the
step changes nothing but the log (fork and shutdown counts untouched) and the
loop continues in the Running state with the remaining signals. -/
theorem C8_unhooked_signal_ignored (sys : DispatchSys) (km : Bool) (mpid : Nat)
    (srv : GracefulServer) (st : LoopState) (sig : Sig) (rest : List Sig)
    (h : sig ∉ sigHooks) :
    dispatchStep sys km mpid srv st sig =
      .next ⟨st.forkAttempts, st.shutdownAttempts,
        st.logs ++ [.received sig, .notHooked sig]⟩ ∧
    dispatchRun sys km mpid srv st (sig :: rest) =
      dispatchRun sys km mpid srv
        ⟨st.forkAttempts, st.shutdownAttempts,
          st.logs ++ [.received sig, .notHooked sig]⟩ rest := by
  cases sig with
  | hup => simp [sigHooks] at h
  | usr1 => simp [sigHooks] at h
  | usr2 => simp [sigHooks] at h
  | intr => simp [sigHooks] at h
  | term => simp [sigHooks] at h
  | otherSig s =>
    constructor
    · simp [dispatchStep]
    · simp [dispatchRun, dispatchStep]

/-- **C8, witness.** An unhooked signal (`SIGWINCH`, say) at the concrete
fixtures. -/
theorem C8_unhooked_signal_ignored_witness :
    dispatchStep sysForkOK false 52233 srvA initLoopState (.otherSig "winch") =
      .next ⟨initLoopState.forkAttempts, initLoopState.shutdownAttempts,
        initLoopState.logs ++ [.received (.otherSig "winch"), .notHooked (.otherSig "winch")]⟩ ∧
    dispatchRun sysForkOK false 52233 srvA initLoopState [.otherSig "winch"] =
      dispatchRun sysForkOK false 52233 srvA
        ⟨initLoopState.forkAttempts, initLoopState.shutdownAttempts,
          initLoopState.logs ++ [.received (.otherSig "winch"), .notHooked (.otherSig "winch")]⟩ [] :=
  C8_unhooked_signal_ignored sysForkOK false 52233 srvA initLoopState
    (.otherSig "winch") [] (by decide)

/-- A descriptor whose address matches `srvA` but whose slot is invalid, so
`os.NewFile` fails during reconstruction. -/
def cexDesc : listenerDescriptor :=
  { Addr := "localhost:8080", FD := -1, Name := "f" }

/-- **C3, counterexample.** An environment payload that parses (it is a
decoded descriptor) and whose address equals the requested address, on which
Listener Acquisition nevertheless calls fresh creation once: reconstruction
fails at `os.NewFile` because the descriptor slot is negative, and the
returned listener is the freshly created one, not a reconstructed one. -/
theorem C3_counterexample :
    cexDesc.Addr = srvA.Addr ∧
    (createListener netOK srvA (EnvValue.record cexDesc)).freshCalls = 1 ∧
    (createListener netOK srvA (EnvValue.record cexDesc)).logs =
      [.importFailed (.newFileFailed "f"), .createdNew "localhost:8080"] :=
  ⟨rfl, rfl, rfl⟩

/-- Helper: whenever `importListener` fails on a nonempty environment value,
`createListener` logs the failure first and calls fresh creation exactly
once. -/
lemma import_error_falls_back (sys : NetSys) (srv : GracefulServer)
    (env : EnvValue) (e : ImportError)
    (he : importListener sys srv env = .error e) (hne : env ≠ EnvValue.empty) :
    (createListener sys srv env).freshCalls = 1 ∧
    (createListener sys srv env).logs.head? = some (.importFailed e) := by
  cases env with
  | empty => exact absurd rfl hne
  | malformed s =>
    cases hn : sys.listen DefaultNetwork srv.Addr <;>
      simp [createListener, he, newListener, hn]
  | record d =>
    cases hn : sys.listen DefaultNetwork srv.Addr <;>
      simp [createListener, he, newListener, hn]

/-- **C3, amended.** If the payload parses, its address matches, and
reconstruction succeeds (a non-negative slot and a successful
`net.FileListener` call), acquisition returns the reconstructed listener and
never calls fresh creation; if the payload is malformed, or its address
mismatches, or reconstruction fails (negative slot, or `net.FileListener`
error), acquisition logs the failure and falls back to fresh creation exactly
once. -/
theorem C3_acquisition_fallback (sys : NetSys) (srv : GracefulServer)
    (d : listenerDescriptor) (s : String) (l : Listener) :
    ((d.Addr = srv.Addr ∧ 0 ≤ d.FD ∧ sys.fileListener d.FD d.Name = some l) →
      createListener sys srv (.record d) =
        { listener := some l, err := none, freshCalls := 0, logs := [.imported] }) ∧
    ((createListener sys srv (.malformed s)).freshCalls = 1 ∧
      (createListener sys srv (.malformed s)).logs.head? =
        some (.importFailed (.unmarshal s))) ∧
    (d.Addr ≠ srv.Addr →
      (createListener sys srv (.record d)).freshCalls = 1 ∧
      (createListener sys srv (.record d)).logs.head? =
        some (.importFailed (.addrMismatch srv.Addr))) ∧
    (d.Addr = srv.Addr → d.FD < 0 →
      (createListener sys srv (.record d)).freshCalls = 1 ∧
      (createListener sys srv (.record d)).logs.head? =
        some (.importFailed (.newFileFailed d.Name))) ∧
    (d.Addr = srv.Addr → 0 ≤ d.FD → sys.fileListener d.FD d.Name = none →
      (createListener sys srv (.record d)).freshCalls = 1 ∧
      (createListener sys srv (.record d)).logs.head? =
        some (.importFailed .fileListenerFailed)) := by
  refine ⟨?_, ?_, ?_, ?_, ?_⟩
  · rintro ⟨ha, hfd, hfl⟩
    simp [createListener, importListener, ha, hfl, Int.not_lt.mpr hfd]
  · exact import_error_falls_back sys srv (.malformed s) (.unmarshal s) rfl
      (by simp)
  · intro ha
    exact import_error_falls_back sys srv (.record d) (.addrMismatch srv.Addr)
      (by simp [importListener, ha]) (by simp)
  · intro ha hfd
    exact import_error_falls_back sys srv (.record d) (.newFileFailed d.Name)
      (by simp [importListener, ha, hfd]) (by simp)
  · intro ha hfd hfl
    exact import_error_falls_back sys srv (.record d) .fileListenerFailed
      (by simp [importListener, ha, hfl, Int.not_lt.mpr hfd]) (by simp)

/-- The address the child requests in the round-trip fixtures. -/
def childSrvA : GracefulServer :=
  { Addr := "localhost:8080", PID := 55344, Listener := none }

/-- **C4.** The descriptor the Process Forker serializes carries the server's
address, the fixed slot constant 3 and the listener file's name; the child's
descriptor table is exactly the three standard streams followed by the
listener file, so the file sits at index 3; and a new process whose requested
address matches, parsing that very payload, reconstructs its listener from
slot 3 without fresh creation. -/
theorem C4_descriptor_roundtrip (sys : ForkSys) (km : Bool) (mpid : Nat)
    (srv : GracefulServer) (lst : Listener) (fname : String)
    (childNet : NetSys) (childSrv : GracefulServer) (l : Listener)
    (h1 : srv.Listener = some lst)
    (h2 : createListenerFile sys lst = .ok fname)
    (h3 : sys.marshalOk = true)
    (h4 : childSrv.Addr = srv.Addr)
    (h5 : childNet.fileListener 3 fname = some l) :
    (forkChild sys km mpid srv).descriptor = some ⟨srv.Addr, 3, fname⟩ ∧
    (forkChild sys km mpid srv).envPayload = some (.record ⟨srv.Addr, 3, fname⟩) ∧
    (forkChild sys km mpid srv).files = [.stdin, .stdout, .stderr, .extra fname] ∧
    (forkChild sys km mpid srv).files.drop 3 = [.extra fname] ∧
    createListener childNet childSrv (.record ⟨srv.Addr, 3, fname⟩) =
      { listener := some l, err := none, freshCalls := 0, logs := [.imported] } := by
  have hcore : (forkChild sys km mpid srv).descriptor = some ⟨srv.Addr, 3, fname⟩ ∧
      (forkChild sys km mpid srv).envPayload = some (.record ⟨srv.Addr, 3, fname⟩) ∧
      (forkChild sys km mpid srv).files = [.stdin, .stdout, .stderr, .extra fname] := by
    cases hE : sys.executableOk <;> cases hS : sys.startOk <;> cases km <;>
      cases hK : sys.killOk <;> simp [forkChild, h1, h2, h3, hE, hS, hK]
  obtain ⟨hd, he, hf⟩ := hcore
  refine ⟨hd, he, hf, ?_, ?_⟩
  · rw [hf]
    rfl
  · simp [createListener, importListener, h4, h5]

/-- **C4, witness.** The round trip at the concrete fixtures: a fork from
`srvA` and a child requesting the same address. -/
theorem C4_descriptor_roundtrip_witness :
    (forkChild forkOK false 52233 srvA).descriptor =
      some ⟨srvA.Addr, 3, "listener-file"⟩ ∧
    (forkChild forkOK false 52233 srvA).envPayload =
      some (.record ⟨srvA.Addr, 3, "listener-file"⟩) ∧
    (forkChild forkOK false 52233 srvA).files =
      [.stdin, .stdout, .stderr, .extra "listener-file"] ∧
    (forkChild forkOK false 52233 srvA).files.drop 3 = [.extra "listener-file"] ∧
    createListener netOK childSrvA (.record ⟨srvA.Addr, 3, "listener-file"⟩) =
      { listener := some (Listener.tcp "listener-file"), err := none,
        freshCalls := 0, logs := [.imported] } :=
  C4_descriptor_roundtrip forkOK false 52233 srvA tcpL "listener-file" netOK
    childSrvA (Listener.tcp "listener-file") rfl rfl rfl rfl rfl

end Octopus
